import Mathlib

/-!
Shallow embedding of src/cookbook/integrations/singlestore/auto_rag/app.py,
a Streamlit app orchestrating an autonomous RAG assistant: session and run
lifecycle, chat message log, streaming response accumulation, and knowledge
base ingestion with session-scoped deduplication flags.

Streamlit session state is modelled explicitly: the boolean dedup flags
(keys of the form "{url}_scraped" / "{stem}_uploaded") as a list of the keys
that are present, widget keys and the stored run id as Option values so that
key-absent and key-present-with-None can be told apart.
-/

namespace AutoRag

/-- A chat message as stored in st.session_state["messages"]:
a dict with a role and a content string. -/
structure Message where
  role : String
  content : String
deriving DecidableEq, Repr

/-- The greeting message installed when no chat history exists
(app.py line 89). -/
def greeting : Message := ⟨"assistant", "Ask me anything..."⟩

/-- Modelled from the spec: the Assistant produced by get_assistant in
assistant.py, which is not among the sources. Per the spec, RunManager
resolve reloads the persisted chat history when an existing run id is given
and otherwise creates a fresh Run with empty history. Only the fields the
app reads are modelled: memory.get_chat_history() and the run identity. -/
structure Assistant where
  chatHistory : List Message
  runId : Option String
deriving DecidableEq, Repr

/-- Modelled from the spec: get_assistant(model, run_id, web_search) from
assistant.py (not among the sources). With a run id it reloads that run and
its persisted history from the run store; without one it creates a new
assistant with empty history. The run store is passed as a function from
run id to persisted history. -/
def get_assistant (runStore : String → List Message) (run_id : Option String) :
    Assistant :=
  match run_id with
  | some rid => ⟨runStore rid, some rid⟩
  | none => ⟨[], none⟩

/-- Modelled from the spec: Assistant.create_run logs the run to the
database and returns its id; an assistant resolved without an existing run
id receives a fresh id (supplied here as a parameter). -/
def create_run (a : Assistant) (freshRunId : String) : String :=
  match a.runId with
  | some rid => rid
  | none => freshRunId

/-- The relevant slice of st.session_state. flags holds the session-state
keys that have been set to True by the ingestion code ("{url}_uploaded",
"{stem}_uploaded", ...). ssAssistantRunId is the stored
"ss_assistant_run_id": none when the key is absent, some v when present
with value v (itself an Option since the app stores None there). -/
structure AppState where
  messages : List Message
  flags : List String
  urlScrapeKey : Option Nat
  fileUploaderKey : Option Nat
  ssAssistant : Option Assistant
  ssAssistantRunId : Option (Option String)
deriving DecidableEq, Repr

/-- restart_assistant (app.py lines 21-29): sets ss_assistant and
ss_assistant_run_id to None (the keys stay present), increments the two
widget keys when they exist, and reruns the script. -/
def restart_assistant (s : AppState) : AppState :=
  { s with
    ssAssistant := none
    ssAssistantRunId := some none
    urlScrapeKey := s.urlScrapeKey.map (· + 1)
    fileUploaderKey := s.fileUploaderKey.map (· + 1) }

/-- Chunk size selection (app.py line 44):
chunk_size = 2000 if selected_llm == "Hermes2" else 3000. -/
def chunkSize (selected_llm : String) : Nat :=
  if selected_llm = "Hermes2" then 2000 else 3000

/-- Lines 62-73: reuse the assistant in session state when present;
otherwise call get_assistant, passing the stored run id when the key
"ss_assistant_run_id" is present (even when its stored value is None). -/
def resolveAssistant (runStore : String → List Message) (s : AppState) :
    Assistant :=
  match s.ssAssistant with
  | some a => a
  | none =>
    match s.ssAssistantRunId with
    | some storedRunId => get_assistant runStore storedRunId
    | none => get_assistant runStore none

/-- Lines 82-89: load existing messages from the chat history when it is
non-empty, else install the greeting. -/
def loadMessages (history : List Message) : List Message :=
  if history.length > 0 then history else [greeting]

/-- Lines 96-100: messages whose role is "system" are skipped when
rendering; everything else is displayed in log order. -/
def renderedMessages (messages : List Message) : List Message :=
  messages.filter (fun m => m.role ≠ "system")

/-- Lines 60-89 of main on the success path of create_run: resolve the
assistant, store it and the created run id in session state, and load the
message log from the chat history. -/
def mainInit (runStore : String → List Message) (freshRunId : String)
    (s : AppState) : AppState :=
  let a := resolveAssistant runStore s
  { s with
    ssAssistant := some a
    ssAssistantRunId := some (some (create_run a freshRunId))
    messages := loadMessages a.chatHistory }

/-- Lines 76-80: the create_run call inside try/except. The outcome of the
external call is a parameter: some rid when the database answers, none when
it raises. On failure the app shows a warning and returns from main; the
assignment to st.session_state["ss_assistant_run_id"] never happens. -/
structure ResolveOutcome where
  state : AppState
  warned : Bool
  abandoned : Bool
deriving DecidableEq, Repr

/-- The try/except around st.session_state["ss_assistant_run_id"] =
ss_assistant.create_run() (app.py lines 76-80). -/
def createRunStep (s : AppState) (callResult : Option String) : ResolveOutcome :=
  match callResult with
  | some rid => ⟨{ s with ssAssistantRunId := some (some rid) }, false, false⟩
  | none => ⟨s, true, true⟩

/-! ## Knowledge base ingestion (app.py lines 115-157)

A Document chunk is abstracted to its text; what matters to the claims is
only whether the reader returned an empty list. The external reader output
is a parameter of each ingestion step. Each step returns the updated flag
set together with how many reader invocations, how many knowledge-base
upsert calls and how many sidebar error reports it issued. -/

/-- Result of one ingestion attempt: the flag keys afterwards, and the
observable side effects it issued. -/
structure IngestResult where
  flags : List String
  readerCalls : Nat
  upserts : Nat
  errorShown : Bool
deriving DecidableEq, Repr

/-- The session-state key checked before scraping a URL
(app.py line 128): f"{input_url}_scraped". -/
def urlScrapedKey (url : String) : String := url ++ "_scraped"

/-- The session-state key the URL branch actually sets after processing
(app.py line 135): f"{input_url}_uploaded". -/
def urlUploadedKey (url : String) : String := url ++ "_uploaded"

/-- app.py lines 125-136, the Add URL button handler: if the key
"{url}_scraped" is not in session state, scrape the URL (one WebsiteReader
read call); when documents came back, load them into the knowledge base
with upsert=True, else show a sidebar error; in either case set
"{url}_uploaded" = True. When "{url}_scraped" is already present, do
nothing. -/
def addUrl (flags : List String) (url : String) (readDocs : List String) :
    IngestResult :=
  if urlScrapedKey url ∈ flags then
    ⟨flags, 0, 0, false⟩
  else if readDocs.isEmpty then
    ⟨urlUploadedKey url :: flags, 1, 0, true⟩
  else
    ⟨urlUploadedKey url :: flags, 1, 1, false⟩

/-- app.py line 147: pdf_name = uploaded_file.name.split(".")[0] — the
substring of the file name before the first dot (the whole name when it
has no dot), embedded structurally over the character list. -/
def pdfStem (name : String) : String :=
  ⟨name.data.takeWhile (fun c => c ≠ '.')⟩

/-- The session-state key used for PDF deduplication
(app.py lines 148 and 155): f"{pdf_name}_uploaded". -/
def pdfUploadedKey (name : String) : String := pdfStem name ++ "_uploaded"

/-- app.py lines 145-156, the PDF upload handler: when "{stem}_uploaded"
is not in session state, read the file (one PDFReader read call); when
documents came back, load them with upsert=True, else show a sidebar
error; in either case set "{stem}_uploaded" = True. When the key is
already present, do nothing. -/
def addPdf (flags : List String) (fileName : String) (readDocs : List String) :
    IngestResult :=
  if pdfUploadedKey fileName ∈ flags then
    ⟨flags, 0, 0, false⟩
  else if readDocs.isEmpty then
    ⟨pdfUploadedKey fileName :: flags, 1, 0, true⟩
  else
    ⟨pdfUploadedKey fileName :: flags, 1, 1, false⟩

/-! ## Streaming response (app.py lines 102-113) -/

/-- Whether the fragment generator returned by ss_assistant.run(question)
runs to exhaustion or raises after its yielded fragments. -/
inductive StreamResult where
  | completed
  | raised
deriving DecidableEq, Repr

/-- One iteration of the for-loop body (app.py lines 109-111): the
accumulating response buffer grows by the fragment; the message log in
session state is untouched. -/
def streamStep (acc : String × List Message) (delta : String) :
    String × List Message :=
  (acc.1 ++ delta, acc.2)

/-- The whole for-loop over the yielded fragments, starting from the empty
buffer (app.py line 107) and the current message log. -/
def runStream (messages : List Message) (fragments : List String) :
    String × List Message :=
  fragments.foldl streamStep ("", messages)

/-- app.py lines 106-113 as one turn: when the generator completes, the
accumulated response is appended to the log as a "ss_assistant" message
(line 113); when the generator raises mid-stream, the exception propagates
out of main and the append never runs, leaving the stored log as it was. -/
def respondTurn (messages : List Message) (fragments : List String)
    (outcome : StreamResult) : List Message :=
  match outcome with
  | .completed =>
    let r := runStream messages fragments
    r.2 ++ [⟨"ss_assistant", r.1⟩]
  | .raised => messages

/-! ## User-triggered events of one session (spec section 5 event model) -/

/-- The user-triggered events of the app, each carrying what the external
collaborators return during its handling. -/
inductive Event where
  | submitPrompt (prompt : String)
  | runResponse (fragments : List String) (outcome : StreamResult)
  | ingestUrl (url : String) (readDocs : List String)
  | ingestPdf (fileName : String) (readDocs : List String)
  | switchRun (newRunId : String)
  | newRunClick
deriving DecidableEq, Repr

/-- Events that go through st.rerun and reload the message log from an
assistant (run switching, lines 159-167, and the New Run button,
lines 173-174) rather than appending to it. -/
def Event.reloadsLog : Event → Bool
  | .switchRun _ => true
  | .newRunClick => true
  | _ => false

/-- One user-triggered event as a transition on the session state.
submitPrompt: line 93. runResponse: lines 102-113, guarded by the last
message having role "user" (line 104). ingestUrl / ingestPdf: the two
ingestion handlers; they never touch the message log. switchRun: lines
162-167, st.session_state["ss_assistant"] is replaced by the assistant
loaded for the chosen run id and the script reruns, after which lines
60-89 store it, create the run and replace the log with that run's
history. newRunClick: restart_assistant followed by the same rerun. -/
def step (runStore : String → List Message) (freshRunId : String)
    (s : AppState) : Event → AppState
  | .submitPrompt p => { s with messages := s.messages ++ [⟨"user", p⟩] }
  | .runResponse fragments outcome =>
    match s.messages.getLast? with
    | some m =>
      if m.role = "user" then
        { s with messages := respondTurn s.messages fragments outcome }
      else s
    | none => s
  | .ingestUrl url readDocs =>
    { s with flags := (addUrl s.flags url readDocs).flags }
  | .ingestPdf fileName readDocs =>
    { s with flags := (addPdf s.flags fileName readDocs).flags }
  | .switchRun newRunId =>
    mainInit runStore freshRunId
      { s with ssAssistant := some (get_assistant runStore (some newRunId)) }
  | .newRunClick =>
    mainInit runStore freshRunId (restart_assistant s)

/-! ## Concrete session states used to exercise the model -/

/-- A run store with no persisted history anywhere. -/
def emptyRunStore : String → List Message := fun _ => []

/-- A run store where run "r2" has the single persisted message
user/"old" and run "r3" has a history starting with a system message. -/
def demoRunStore : String → List Message :=
  fun rid =>
    if rid = "r2" then [⟨"user", "old"⟩]
    else if rid = "r3" then [⟨"system", "sys"⟩, ⟨"user", "hi"⟩]
    else []

/-- A session in which the file stem "report" has already been ingested:
the flag "report_uploaded" is present. -/
def ingestedState : AppState :=
  { messages := [greeting]
    flags := ["report_uploaded"]
    urlScrapeKey := some 0
    fileUploaderKey := some 100
    ssAssistant := some ⟨[greeting], some "r1"⟩
    ssAssistantRunId := some (some "r1") }

/-- The session state right after the very first script run: no session
keys yet, then lines 60-89 create the assistant, the run and the greeting
log. -/
def initState : AppState :=
  mainInit demoRunStore "r1" ⟨[], [], none, none, none, none⟩

/-! ## Helper lemmas -/

/-- The streaming for-loop threads the message log through unchanged and
concatenates the fragments onto the buffer. -/
theorem foldl_streamStep (fragments : List String) :
    ∀ (b : String) (msgs : List Message),
      fragments.foldl streamStep (b, msgs)
        = (fragments.foldl (· ++ ·) b, msgs) := by
  induction fragments with
  | nil => intro b msgs; rfl
  | cons x xs ih => intro b msgs; exact ih (b ++ x) msgs

/-- Running the stream from the empty buffer yields the join of the
fragments and leaves the log untouched. -/
theorem runStream_eq (msgs : List Message) (fragments : List String) :
    runStream msgs fragments = (String.join fragments, msgs) := by
  unfold runStream
  rw [foldl_streamStep]
  rfl

/-- On a completed stream the turn appends exactly the join of the
fragments as one assistant message. -/
theorem respondTurn_completed_eq
    (messages : List Message) (fragments : List String) :
    respondTurn messages fragments .completed
      = messages ++ [⟨"ss_assistant", String.join fragments⟩] := by
  show (runStream messages fragments).2
      ++ [⟨"ss_assistant", (runStream messages fragments).1⟩] = _
  rw [runStream_eq]

/-! ## Claim theorems -/

/-- Claim C7: the chunk size used for ingestion is a pure, total function
of the active model only: chunkSize(Hermes2) = 2000 and chunkSize(GPT-4) =
chunkSize(GPT-3.5) = 3000, for every invocation and independent of any
prior calls or other session state (chunkSize is a function of the selected
model alone in this embedding, matching app.py line 44). -/
theorem chunkSize_values :
    chunkSize "Hermes2" = 2000 ∧ chunkSize "GPT-4" = 3000
      ∧ chunkSize "GPT-3.5" = 3000 :=
  ⟨rfl, rfl, rfl⟩

/-- Claim C4: when the response stream completes without failure, exactly
one assistant message is appended to the log, its content is byte-for-byte
the concatenation of all yielded fragments in order, and the log is
untouched at every intermediate point of the loop, so no message is
appended before the stream is exhausted. -/
theorem respond_appends_exact_concatenation
    (messages : List Message) (fragments : List String) :
    respondTurn messages fragments .completed
        = messages ++ [⟨"ss_assistant", String.join fragments⟩]
      ∧ ∀ yielded : List String, (runStream messages yielded).2 = messages := by
  constructor
  · show (runStream messages fragments).2
        ++ [⟨"ss_assistant", (runStream messages fragments).1⟩] = _
    rw [runStream_eq]
  · intro yielded
    rw [runStream_eq]

/-- Claim C5: if the backend raises mid-stream after yielding some
fragments, the partial buffer is discarded and the log is exactly as it
was before the response turn started, so the question from the user
remains the last log entry and may be resubmitted. -/
theorem midstream_failure_leaves_log_unchanged
    (messages : List Message) (fragments : List String) (q : String)
    (h : messages.getLast? = some ⟨"user", q⟩) :
    respondTurn messages fragments .raised = messages
      ∧ (respondTurn messages fragments .raised).getLast? = some ⟨"user", q⟩ :=
  ⟨rfl, h⟩

/-- Witness for C5 at the concrete scenario of the spec: backend raises
after yielding "Par"; the log keeps user/"q1" as its last entry. -/
theorem midstream_failure_witness :
    respondTurn [greeting, ⟨"user", "q1"⟩] ["Par"] .raised
        = [greeting, ⟨"user", "q1"⟩]
      ∧ (respondTurn [greeting, ⟨"user", "q1"⟩] ["Par"] .raised).getLast?
        = some ⟨"user", "q1"⟩ :=
  midstream_failure_leaves_log_unchanged
    [greeting, ⟨"user", "q1"⟩] ["Par"] "q1" rfl

/-- Claim C6: if create_run fails at run-resolution time, a user-visible
warning is surfaced, the request is abandoned (main returns), and no
session state is mutated by the failed resolution. -/
theorem createRun_failure_no_mutation (s : AppState) :
    (createRunStep s none).state = s
      ∧ (createRunStep s none).warned = true
      ∧ (createRunStep s none).abandoned = true :=
  ⟨rfl, rfl, rfl⟩

/-- Claim C8: loading an existing run id R whose persisted history is
non-empty yields a message log exactly equal to that history, in order,
nothing filtered out or reordered; system-role entries stay in the log and
are excluded only from rendering. -/
theorem load_existing_history_verbatim (runStore : String → List Message)
    (freshRunId R : String) (s : AppState) (hne : runStore R ≠ []) :
    (mainInit runStore freshRunId
        { s with ssAssistant := some (get_assistant runStore (some R)) }).messages
        = runStore R
      ∧ ∀ m ∈ runStore R, m.role = "system" →
          m ∈ (mainInit runStore freshRunId
              { s with
                ssAssistant := some (get_assistant runStore (some R)) }).messages
            ∧ m ∉ renderedMessages (runStore R) := by
  have hmsg : (mainInit runStore freshRunId
      { s with ssAssistant := some (get_assistant runStore (some R)) }).messages
      = loadMessages (runStore R) := rfl
  have hload : loadMessages (runStore R) = runStore R := by
    unfold loadMessages
    rw [if_pos (List.length_pos.mpr hne)]
  refine ⟨hmsg.trans hload, ?_⟩
  intro m hm hrole
  refine ⟨by rw [hmsg, hload]; exact hm, ?_⟩
  intro hmem
  have hp := (List.mem_filter.mp hmem).2
  simp [hrole] at hp

/-- Witness for C8: loading run "r3", whose persisted history holds a
system message followed by a user message. -/
theorem load_existing_history_witness :
    demoRunStore "r3" ≠ []
      ∧ (mainInit demoRunStore "rf"
          { initState with
            ssAssistant := some (get_assistant demoRunStore (some "r3")) }).messages
          = demoRunStore "r3"
      ∧ (⟨"system", "sys"⟩ : Message) ∉ renderedMessages (demoRunStore "r3") := by
  have hmain := load_existing_history_verbatim demoRunStore "rf" "r3"
    initState (by decide)
  exact ⟨by decide, hmain.1, (hmain.2 ⟨"system", "sys"⟩ (by decide) rfl).2⟩

/-- Claim C10: the ledger identity key of an uploaded file is the
substring of the file name before the first dot, so two distinct files
sharing that stem collide: the first triggers one reader call and one
upsert, the second is silently skipped (no reader call, no upsert, no
error). -/
theorem pdf_stem_key_collision (flags : List String)
    (name1 name2 : String) (docs1 docs2 : List String)
    (hstem : pdfStem name1 = pdfStem name2)
    (hnew : pdfUploadedKey name1 ∉ flags)
    (hdocs : docs1 ≠ []) :
    pdfStem "report.pdf" = "report"
      ∧ pdfStem "report.v2.pdf" = "report"
      ∧ (addPdf flags name1 docs1).readerCalls = 1
      ∧ (addPdf flags name1 docs1).upserts = 1
      ∧ addPdf (addPdf flags name1 docs1).flags name2 docs2
          = ⟨(addPdf flags name1 docs1).flags, 0, 0, false⟩ := by
  have hkey : pdfUploadedKey name2 = pdfUploadedKey name1 := by
    unfold pdfUploadedKey
    rw [hstem]
  have hempty : docs1.isEmpty = false := by
    cases docs1 with
    | nil => exact absurd rfl hdocs
    | cons a l => rfl
  have h1 : addPdf flags name1 docs1
      = ⟨pdfUploadedKey name1 :: flags, 1, 1, false⟩ := by
    simp [addPdf, hnew, hempty]
  have hmem : pdfUploadedKey name2 ∈ pdfUploadedKey name1 :: flags := by
    rw [hkey]
    exact List.mem_cons_self _ _
  have h2 : addPdf (pdfUploadedKey name1 :: flags) name2 docs2
      = ⟨pdfUploadedKey name1 :: flags, 0, 0, false⟩ := by
    simp [addPdf, hmem]
  refine ⟨by decide, by decide, ?_, ?_, ?_⟩
  · rw [h1]
  · rw [h1]
  · rw [h1]
    exact h2

/-- Witness for C10: report.pdf then report.v2.pdf in a fresh session;
the second upload issues no reader call and no upsert. -/
theorem pdf_stem_key_collision_witness :
    (addPdf [] "report.pdf" ["d1"]).readerCalls = 1
      ∧ addPdf (addPdf [] "report.pdf" ["d1"]).flags "report.v2.pdf" ["d2"]
          = ⟨(addPdf [] "report.pdf" ["d1"]).flags, 0, 0, false⟩ := by
  have hmain := pdf_stem_key_collision [] "report.pdf" "report.v2.pdf"
    ["d1"] ["d2"] (by decide) (by simp) (by simp)
  exact ⟨hmain.2.2.1, hmain.2.2.2.2⟩

/-- Claim C1, evaluated at the failing input: adding URL "u1" twice. The
guard at app.py line 128 checks the key "u1_scraped" but line 135 sets
"u1_uploaded", so the second click issues a second reader call and a
second upsert instead of being a no-op. -/
theorem url_ingest_not_idempotent :
    (addUrl [] "u1" ["doc"]).readerCalls = 1
      ∧ (addUrl [] "u1" ["doc"]).upserts = 1
      ∧ (addUrl [] "u1" ["doc"]).flags = [urlUploadedKey "u1"]
      ∧ urlScrapedKey "u1" ∉ (addUrl [] "u1" ["doc"]).flags
      ∧ (addUrl (addUrl [] "u1" ["doc"]).flags "u1" ["doc"]).readerCalls = 1
      ∧ (addUrl (addUrl [] "u1" ["doc"]).flags "u1" ["doc"]).upserts = 1 := by
  decide

/-- Claim C2, evaluated at the failing input: a PDF named "report.pdf"
whose reader returns zero documents. The error is shown and no upsert
happens, but line 155 still sets "report_uploaded", so uploading the same
file again is skipped (no reader call) instead of retrying. -/
theorem empty_pdf_read_blocks_retry :
    (addPdf [] "report.pdf" []).errorShown = true
      ∧ (addPdf [] "report.pdf" []).upserts = 0
      ∧ (addPdf [] "report.pdf" []).flags = [pdfUploadedKey "report.pdf"]
      ∧ (addPdf (addPdf [] "report.pdf" []).flags
          "report.pdf" ["doc"]).readerCalls = 0
      ∧ (addPdf (addPdf [] "report.pdf" []).flags
          "report.pdf" ["doc"]).upserts = 0 := by
  decide

/-- Claim C2 as amended: when the reader returns zero documents the app
reports an error and issues no upsert, but it still marks the
"_uploaded" flag of the source; consequently a subsequent upload of a PDF
with the same stem in the same session is skipped without a reader call,
so the retry is blocked for files. For a URL the error is likewise
reported with no upsert and "{url}_uploaded" is set; a URL retry still
reaches the reader only because the guard tests the never-set
"{url}_scraped" key. -/
theorem empty_read_marks_flag (flags : List String) (name url : String)
    (docs : List String)
    (hnew : pdfUploadedKey name ∉ flags)
    (hurl : urlScrapedKey url ∉ flags) :
    (addPdf flags name []).readerCalls = 1
      ∧ (addPdf flags name []).upserts = 0
      ∧ (addPdf flags name []).errorShown = true
      ∧ (addPdf flags name []).flags = pdfUploadedKey name :: flags
      ∧ addPdf (addPdf flags name []).flags name docs
          = ⟨(addPdf flags name []).flags, 0, 0, false⟩
      ∧ (addUrl flags url []).upserts = 0
      ∧ (addUrl flags url []).errorShown = true
      ∧ urlUploadedKey url ∈ (addUrl flags url []).flags := by
  have h1 : addPdf flags name []
      = ⟨pdfUploadedKey name :: flags, 1, 0, true⟩ := by
    simp [addPdf, hnew]
  have h2 : addPdf (pdfUploadedKey name :: flags) name docs
      = ⟨pdfUploadedKey name :: flags, 0, 0, false⟩ := by
    simp [addPdf]
  have h3 : addUrl flags url []
      = ⟨urlUploadedKey url :: flags, 1, 0, true⟩ := by
    simp [addUrl, hurl]
  refine ⟨by rw [h1], by rw [h1], by rw [h1], by rw [h1],
    by rw [h1]; exact h2, by rw [h3], by rw [h3], ?_⟩
  rw [h3]
  exact List.mem_cons_self _ _

/-- Witness for the amended C2: report.pdf read empty, then re-uploaded;
URL "u1" read empty. -/
theorem empty_read_marks_flag_witness :
    (addPdf [] "report.pdf" []).errorShown = true
      ∧ addPdf (addPdf [] "report.pdf" []).flags "report.pdf" ["doc"]
          = ⟨(addPdf [] "report.pdf" []).flags, 0, 0, false⟩
      ∧ urlUploadedKey "u1" ∈ (addUrl [] "u1" []).flags := by
  have hmain := empty_read_marks_flag [] "report.pdf" "u1" ["doc"]
    (by simp) (by simp)
  exact ⟨hmain.2.2.1, hmain.2.2.2.2.1, hmain.2.2.2.2.2.2.2⟩

/-- Claim C3 counterexample: restart does not empty the ingestion ledger.
Starting from a session where the stem "report" was ingested, a restart
(for any trigger) leaves the flag "report_uploaded" in place, and
re-uploading report.pdf is skipped (zero reader calls) instead of being
treated as new. -/
theorem restart_keeps_ledger_counterexample :
    (mainInit emptyRunStore "r2" (restart_assistant ingestedState)).flags
        = ["report_uploaded"]
      ∧ (mainInit emptyRunStore "r2" (restart_assistant ingestedState)).flags ≠ []
      ∧ (addPdf (mainInit emptyRunStore "r2"
          (restart_assistant ingestedState)).flags
          "report.pdf" ["doc"]).readerCalls = 0 := by
  decide

/-- Claim C3 as amended: after a restart the message log is the single
greeting and the active run is freshly resolved, but the ingestion flags
persist unchanged (only the two widget keys are advanced), so a previously
ingested file stem is still skipped after the restart. -/
theorem restart_resets_log_and_run (s : AppState)
    (runStore : String → List Message) (freshRunId : String) :
    (mainInit runStore freshRunId (restart_assistant s)).messages = [greeting]
      ∧ (mainInit runStore freshRunId (restart_assistant s)).ssAssistantRunId
          = some (some freshRunId)
      ∧ (mainInit runStore freshRunId (restart_assistant s)).flags = s.flags :=
  ⟨rfl, rfl, rfl⟩

/-- Claim C9 counterexample: switching to another existing run id is a
user-triggered event that is not a full restart, yet it replaces the
message log with the persisted history of the chosen run. After submitting
"q1" the log is [greeting, user q1]; the immediately following run-switch
event to run "r2" (whose history is [user old]) yields a log of which the
previous log is not an initial segment. -/
theorem run_switch_replaces_log :
    ¬ ((step demoRunStore "rf" initState (.submitPrompt "q1")).messages
        <+: (step demoRunStore "rf"
              (step demoRunStore "rf" initState (.submitPrompt "q1"))
              (.switchRun "r2")).messages) := by
  intro hpre
  have h1 : (step demoRunStore "rf" initState (.submitPrompt "q1")).messages
      = [greeting, ⟨"user", "q1"⟩] := by decide
  have h2 : (step demoRunStore "rf"
        (step demoRunStore "rf" initState (.submitPrompt "q1"))
        (.switchRun "r2")).messages = [⟨"user", "old"⟩] := by decide
  rw [h1, h2] at hpre
  obtain ⟨t, ht⟩ := hpre
  have hlen := congrArg List.length ht
  simp at hlen

/-- Claim C9 as amended: outside of a full restart and of a run switch
(each of which reloads the log from the selected assistant), every
user-triggered event leaves the previous message log as an initial segment
of the new one: submitting appends the user message, a completed response
appends one assistant message, a failed response and both ingestion events
leave the log unchanged. -/
theorem log_append_only_outside_reloads (runStore : String → List Message)
    (freshRunId : String) (s : AppState) (e : Event)
    (h : e.reloadsLog = false) :
    s.messages <+: (step runStore freshRunId s e).messages := by
  cases e with
  | submitPrompt p => exact ⟨[⟨"user", p⟩], rfl⟩
  | runResponse fragments outcome =>
    simp only [step]
    split
    · split
      · cases outcome with
        | completed =>
          show s.messages <+: respondTurn s.messages fragments .completed
          rw [respondTurn_completed_eq]
          exact ⟨_, rfl⟩
        | raised => exact ⟨[], List.append_nil _⟩
      · exact ⟨[], List.append_nil _⟩
    · exact ⟨[], List.append_nil _⟩
  | ingestUrl url readDocs => exact ⟨[], List.append_nil _⟩
  | ingestPdf fileName readDocs => exact ⟨[], List.append_nil _⟩
  | switchRun newRunId => simp [Event.reloadsLog] at h
  | newRunClick => simp [Event.reloadsLog] at h

/-- Witness for the amended C9 at a concrete non-reloading event: the
submit event keeps the greeting log as an initial segment. -/
theorem log_append_only_witness :
    Event.reloadsLog (.submitPrompt "hi") = false
      ∧ initState.messages
          <+: (step demoRunStore "rf" initState (.submitPrompt "hi")).messages :=
  ⟨rfl, log_append_only_outside_reloads demoRunStore "rf" initState
    (.submitPrompt "hi") rfl⟩

end AutoRag
